import Mathlib

/-!
Shallow embedding of the CAN addressing layer of the `rust-can` crate:
identifier flags (`constants.rs`), standard/extended identifiers and their
ordering (`id.rs`), the (identifier, mask) filter predicate (`filter.rs`) and
the legislated-OBD diagnostic addressing (`obd.rs`).

Machine integers (`u16`, `u32`) are modelled as `Nat`; all constructors that
check a range in the source return `Option` here as well, and operations whose
Rust counterpart can panic (`unwrap` on a fallible constructor, `u16`
subtraction underflow) return `Option`, with `none` standing for the panic.
-/

set_option maxRecDepth 4000

namespace RustCan

/-! ## constants.rs -/

/-- Identifier flags, from the `bitflags!` block in `constants.rs`.  The Rust
type stores a `u32` whose only populated bits are the three named flag bits,
so it is modelled structurally as three booleans. -/
structure IdentifierFlags where
  extended : Bool
  remote : Bool
  error : Bool
  deriving DecidableEq

/-- `IdentifierFlags::EXTENDED = 0x80000000`. -/
def IdentifierFlags.EXTENDED : IdentifierFlags := ⟨true, false, false⟩

/-- `IdentifierFlags::REMOTE = 0x40000000`. -/
def IdentifierFlags.REMOTE : IdentifierFlags := ⟨false, true, false⟩

/-- `IdentifierFlags::ERROR = 0x20000000`. -/
def IdentifierFlags.ERROR : IdentifierFlags := ⟨false, false, true⟩

/-- `IdentifierFlags::empty()`. -/
def IdentifierFlags.empty : IdentifierFlags := ⟨false, false, false⟩

/-- `IdentifierFlags::all()`. -/
def IdentifierFlags.all : IdentifierFlags := ⟨true, true, true⟩

/-- `IdentifierFlags::bits()`: the stored `u32`.  The three flag constants
occupy disjoint bits, so the bitwise union stored by `bitflags` equals this
sum. -/
def IdentifierFlags.bits (f : IdentifierFlags) : Nat :=
  (cond f.extended 0x80000000 0) + (cond f.remote 0x40000000 0) +
    (cond f.error 0x20000000 0)

/-- `IdentifierFlags::union` (bitwise or of the stored bits). -/
def IdentifierFlags.union (a b : IdentifierFlags) : IdentifierFlags :=
  ⟨a.extended || b.extended, a.remote || b.remote, a.error || b.error⟩

/-- `IdentifierFlags::difference` (bits of `a` with the bits of `b` removed). -/
def IdentifierFlags.difference (a b : IdentifierFlags) : IdentifierFlags :=
  ⟨a.extended && !b.extended, a.remote && !b.remote, a.error && !b.error⟩

/-- `EFF_MASK`: mask for extended identifiers. -/
def EFF_MASK : Nat := 0x1fffffff

/-! ## id.rs -/

/-- `StandardId`: an 11-bit CAN identifier (`identifier` is a `u16` in the
source) together with its flags. -/
structure StandardId where
  identifier : Nat
  flags : IdentifierFlags
  deriving DecidableEq

/-- `StandardId::ZERO`. -/
def StandardId.ZERO : StandardId := ⟨0, IdentifierFlags.empty⟩

/-- `StandardId::MAX`. -/
def StandardId.MAX : StandardId := ⟨0x7FF, IdentifierFlags.empty⟩

/-- `StandardId::as_raw`. -/
def StandardId.as_raw (s : StandardId) : Nat := s.identifier

/-- `StandardId::new`: `None` if the value is greater than `MAX`. -/
def StandardId.new (identifier : Nat) : Option StandardId :=
  if identifier ≤ StandardId.MAX.as_raw then
    some ⟨identifier, IdentifierFlags.empty⟩
  else
    none

/-- `StandardId::with_flags`: same range check, EXTENDED bit forcibly
cleared. -/
def StandardId.with_flags (identifier : Nat) (flags : IdentifierFlags) :
    Option StandardId :=
  if identifier ≤ StandardId.MAX.as_raw then
    some ⟨identifier, flags.difference IdentifierFlags.EXTENDED⟩
  else
    none

/-- `StandardId::set_flags`: replaces the flags verbatim. -/
def StandardId.set_flags (s : StandardId) (flags : IdentifierFlags) :
    StandardId :=
  ⟨s.identifier, flags⟩

/-- `StandardId::map_flags`: applies the caller-supplied function verbatim. -/
def StandardId.map_flags (s : StandardId) (f : IdentifierFlags → IdentifierFlags) :
    StandardId :=
  ⟨s.identifier, f s.flags⟩

/-- `ExtendedId`: a 29-bit CAN identifier (`identifier` is a `u32` in the
source) together with its flags. -/
structure ExtendedId where
  identifier : Nat
  flags : IdentifierFlags
  deriving DecidableEq

/-- `ExtendedId::ZERO`. -/
def ExtendedId.ZERO : ExtendedId := ⟨0, IdentifierFlags.EXTENDED⟩

/-- `ExtendedId::MAX`. -/
def ExtendedId.MAX : ExtendedId := ⟨0x1FFFFFFF, IdentifierFlags.EXTENDED⟩

/-- `ExtendedId::as_raw`. -/
def ExtendedId.as_raw (e : ExtendedId) : Nat := e.identifier

/-- `ExtendedId::new`: `None` above `MAX`; flags default to EXTENDED only. -/
def ExtendedId.new (identifier : Nat) : Option ExtendedId :=
  if identifier ≤ ExtendedId.MAX.identifier then
    some ⟨identifier, IdentifierFlags.EXTENDED⟩
  else
    none

/-- `ExtendedId::with_flags`: same range check, EXTENDED bit forcibly set. -/
def ExtendedId.with_flags (identifier : Nat) (flags : IdentifierFlags) :
    Option ExtendedId :=
  if identifier ≤ ExtendedId.MAX.as_raw then
    some ⟨identifier, flags.union IdentifierFlags.EXTENDED⟩
  else
    none

/-- `ExtendedId::set_flags`: the EXTENDED bit is re-asserted. -/
def ExtendedId.set_flags (e : ExtendedId) (flags : IdentifierFlags) :
    ExtendedId :=
  ⟨e.identifier, flags.union IdentifierFlags.EXTENDED⟩

/-- `ExtendedId::map_flags`: the EXTENDED bit is re-asserted after the
caller-supplied transformation. -/
def ExtendedId.map_flags (e : ExtendedId) (f : IdentifierFlags → IdentifierFlags) :
    ExtendedId :=
  ⟨e.identifier, (f e.flags).union IdentifierFlags.EXTENDED⟩

/-- `Id`: a standard or an extended CAN identifier. -/
inductive Id where
  | Standard (sid : StandardId)
  | Extended (eid : ExtendedId)
  deriving DecidableEq

/-- `Id::as_raw`. -/
def Id.as_raw : Id → Nat
  | .Standard sid => sid.as_raw
  | .Extended eid => eid.as_raw

/-- `Id::flags`. -/
def Id.flags : Id → IdentifierFlags
  | .Standard sid => sid.flags
  | .Extended eid => eid.flags

/-- `Id::set_flags`: dispatches to the active variant. -/
def Id.set_flags : Id → IdentifierFlags → Id
  | .Standard sid, f => .Standard (sid.set_flags f)
  | .Extended eid, f => .Extended (eid.set_flags f)

/-- `Id::map_flags`: dispatches to the active variant. -/
def Id.map_flags : Id → (IdentifierFlags → IdentifierFlags) → Id
  | .Standard sid, f => .Standard (sid.map_flags f)
  | .Extended eid, f => .Extended (eid.map_flags f)

/-- The derived `PartialOrd` of `StandardId` / `ExtendedId` compares the
fields lexicographically: numeric identifier first, then the flag bits (the
derived ordering of the `bitflags` type compares the stored `u32`). -/
def StandardId.cmp (a b : StandardId) : Ordering :=
  if a.identifier < b.identifier then .lt
  else if b.identifier < a.identifier then .gt
  else if a.flags.bits < b.flags.bits then .lt
  else if b.flags.bits < a.flags.bits then .gt
  else .eq

/-- Derived lexicographic comparison of `ExtendedId` (see `StandardId.cmp`). -/
def ExtendedId.cmp (a b : ExtendedId) : Ordering :=
  if a.identifier < b.identifier then .lt
  else if b.identifier < a.identifier then .gt
  else if a.flags.bits < b.flags.bits then .lt
  else if b.flags.bits < a.flags.bits then .gt
  else .eq

/-- The manual `PartialOrd for Id`: any standard identifier is less than any
extended identifier; within a variant the derived comparison applies. -/
def Id.cmp : Id → Id → Ordering
  | .Standard a, .Standard b => StandardId.cmp a b
  | .Standard _, .Extended _ => .lt
  | .Extended _, .Standard _ => .gt
  | .Extended a, .Extended b => ExtendedId.cmp a b

/-- Rust `a <= b` via `partial_cmp`: true when the comparison is Less or
Equal. -/
def Id.le (a b : Id) : Bool :=
  match Id.cmp a b with
  | .gt => false
  | _ => true

/-- Rust `a >= b` via `partial_cmp`: true when the comparison is Greater or
Equal. -/
def Id.ge (a b : Id) : Bool :=
  match Id.cmp a b with
  | .lt => false
  | _ => true

/-- The range invariants the Rust types enforce through their constructors:
a `StandardId` holds a value of at most `0x7FF`, an `ExtendedId` a value of at
most `0x1FFFFFFF`. -/
def Id.InRange : Id → Prop
  | .Standard sid => sid.identifier ≤ 0x7FF
  | .Extended eid => eid.identifier ≤ 0x1FFFFFFF

/-! ## filter.rs -/

/-- `Mask`: mask component of a filter, a raw `u32`. -/
structure Mask where
  val : Nat
  deriving DecidableEq

/-- `Mask::ALL`. -/
def Mask.ALL : Mask := ⟨0xFFFFFFFF⟩

/-- `Mask::NONE`. -/
def Mask.NONE : Mask := ⟨0⟩

/-- `Mask::new`. -/
def Mask.new (mask : Nat) : Mask := ⟨mask⟩

/-- `Filter`: an (identifier, mask) pair. -/
structure Filter where
  id : Id
  mask : Mask
  deriving DecidableEq

/-- `Filter::new`. -/
def Filter.new (id : Id) (mask : Mask) : Filter := ⟨id, mask⟩

/-- `Filter::from_identity`: mask is `EFF_MASK | id.flags().bits()`. -/
def Filter.from_identity (id : Id) : Filter :=
  ⟨id, ⟨EFF_MASK ||| id.flags.bits⟩⟩

/-- `Filter::range`: orders the two bounds by raw value, keeps the lower one
as the filter identifier and subtracts the raw delta from `Mask::ALL`. -/
def Filter.range (start stop : Id) : Filter :=
  if stop.as_raw < start.as_raw then
    ⟨stop, ⟨Mask.ALL.val - (start.as_raw - stop.as_raw)⟩⟩
  else
    ⟨start, ⟨Mask.ALL.val - (stop.as_raw - start.as_raw)⟩⟩

/-- `Filter::none`: the maximal extended identifier with every flag set,
compared under `Mask::ALL`. -/
def Filter.none : Filter :=
  ⟨(Id.Extended ExtendedId.MAX).set_flags IdentifierFlags.all, Mask.ALL⟩

/-- `Filter::any`: mask 0 matches everything. -/
def Filter.any : Filter :=
  ⟨Id.Standard StandardId.ZERO, ⟨0⟩⟩

/-- Bitwise complement on `u32`, i.e. Rust `!x` at type `u32`. -/
def u32_not (x : Nat) : Nat := 0xFFFFFFFF ^^^ x

/-- `Filter::allow_extended_frames`: sets the EXTENDED bit in the mask. -/
def Filter.allow_extended_frames (f : Filter) : Filter :=
  ⟨f.id, ⟨f.mask.val ||| IdentifierFlags.EXTENDED.bits⟩⟩

/-- `Filter::disallow_extended_frames`: clears the EXTENDED bit in the mask. -/
def Filter.disallow_extended_frames (f : Filter) : Filter :=
  ⟨f.id, ⟨f.mask.val &&& u32_not IdentifierFlags.EXTENDED.bits⟩⟩

/-- `Filter::matches`: folds value and flag bits of each side with bitwise or
and compares under the mask. -/
def Filter.matches (f : Filter) (id : Id) : Bool :=
  (id.as_raw ||| id.flags.bits) &&& f.mask.val ==
    (f.id.as_raw ||| f.id.flags.bits) &&& f.mask.val

/-! ## obd.rs -/

/-- `OBD_REQ_ADDR_START_STANDARD = Id::Standard(standard_id(0x7E0))`
(`StandardId::new` leaves the flags empty). -/
def OBD_REQ_ADDR_START_STANDARD : Id := .Standard ⟨0x7E0, IdentifierFlags.empty⟩

/-- `OBD_REQ_ADDR_END_STANDARD = Id::Standard(standard_id(0x7E7))`. -/
def OBD_REQ_ADDR_END_STANDARD : Id := .Standard ⟨0x7E7, IdentifierFlags.empty⟩

/-- `OBD_RESP_ADDR_START_STANDARD = Id::Standard(standard_id(0x7E8))`. -/
def OBD_RESP_ADDR_START_STANDARD : Id := .Standard ⟨0x7E8, IdentifierFlags.empty⟩

/-- `OBD_RESP_ADDR_END_STANDARD = Id::Standard(standard_id(0x7EF))`. -/
def OBD_RESP_ADDR_END_STANDARD : Id := .Standard ⟨0x7EF, IdentifierFlags.empty⟩

/-- `OBD_REQ_ADDR_START_EXTENDED = Id::Extended(extended_id(0x18DA00F1))`
(`ExtendedId::new` sets exactly the EXTENDED flag). -/
def OBD_REQ_ADDR_START_EXTENDED : Id :=
  .Extended ⟨0x18DA00F1, IdentifierFlags.EXTENDED⟩

/-- `OBD_REQ_ADDR_END_EXTENDED = Id::Extended(extended_id(0x18DAFFF1))`. -/
def OBD_REQ_ADDR_END_EXTENDED : Id :=
  .Extended ⟨0x18DAFFF1, IdentifierFlags.EXTENDED⟩

/-- `OBD_RESP_ADDR_START_EXTENDED = Id::Extended(extended_id(0x18DAF100))`. -/
def OBD_RESP_ADDR_START_EXTENDED : Id :=
  .Extended ⟨0x18DAF100, IdentifierFlags.EXTENDED⟩

/-- `OBD_RESP_ADDR_END_EXTENDED = Id::Extended(extended_id(0x18DAF1FF))`. -/
def OBD_RESP_ADDR_END_EXTENDED : Id :=
  .Extended ⟨0x18DAF1FF, IdentifierFlags.EXTENDED⟩

/-- `OBD_REQ_RESP_ADDR_OFFSET_STANDARD = 8`. -/
def OBD_REQ_RESP_ADDR_OFFSET_STANDARD : Nat := 8

/-- `swap_eid_target_source`: keeps the top 16 bits and exchanges the two low
bytes. -/
def swap_eid_target_source (eid_raw : Nat) : Nat :=
  eid_raw &&& 0xFFFF0000 ||| (eid_raw &&& 0x0000FF00) >>> 8 |||
    (eid_raw &&& 0x000000FF) <<< 8

/-- `DiagnosticRequestAddress`: a validated physical OBD request identifier. -/
structure DiagnosticRequestAddress where
  id : Id
  deriving DecidableEq

/-- `DiagnosticResponseAddress`: a validated physical OBD response
identifier. -/
structure DiagnosticResponseAddress where
  id : Id
  deriving DecidableEq

/-- `DiagnosticRequestAddress::from_id`: the identifier must fall in the
standard or the extended request band, under the `Id` comparison operators. -/
def DiagnosticRequestAddress.from_id (id : Id) : Option DiagnosticRequestAddress :=
  let std := Id.ge id OBD_REQ_ADDR_START_STANDARD &&
    Id.le id OBD_REQ_ADDR_END_STANDARD
  let ext := Id.ge id OBD_REQ_ADDR_START_EXTENDED &&
    Id.le id OBD_REQ_ADDR_END_EXTENDED
  if std || ext then some ⟨id⟩ else none

/-- `DiagnosticResponseAddress::from_id`: symmetric check against the response
bands. -/
def DiagnosticResponseAddress.from_id (id : Id) : Option DiagnosticResponseAddress :=
  let std := Id.ge id OBD_RESP_ADDR_START_STANDARD &&
    Id.le id OBD_RESP_ADDR_END_STANDARD
  let ext := Id.ge id OBD_RESP_ADDR_START_EXTENDED &&
    Id.le id OBD_RESP_ADDR_END_EXTENDED
  if std || ext then some ⟨id⟩ else none

/-- `DiagnosticRequestAddress::into_response_address`.  The source `unwrap`s
the fallible `StandardId::new` / `ExtendedId::new`; `none` models the panic on
a failed unwrap. -/
def DiagnosticRequestAddress.into_response_address
    (a : DiagnosticRequestAddress) : Option DiagnosticResponseAddress :=
  match a.id with
  | .Standard sid =>
      (StandardId.new (sid.as_raw + OBD_REQ_RESP_ADDR_OFFSET_STANDARD)).map
        (fun r => ⟨.Standard r⟩)
  | .Extended eid =>
      (ExtendedId.new (swap_eid_target_source eid.as_raw)).map
        (fun r => ⟨.Extended r⟩)

/-- `DiagnosticResponseAddress::into_request_address`.  The source subtracts 8
from a `u16` (a panic on underflow, modelled as `none`) and `unwrap`s
`StandardId::new` / `ExtendedId::new` (`none` models the panic). -/
def DiagnosticResponseAddress.into_request_address
    (a : DiagnosticResponseAddress) : Option DiagnosticRequestAddress :=
  match a.id with
  | .Standard sid =>
      if sid.as_raw < OBD_REQ_RESP_ADDR_OFFSET_STANDARD then none
      else
        (StandardId.new (sid.as_raw - OBD_REQ_RESP_ADDR_OFFSET_STANDARD)).map
          (fun r => ⟨.Standard r⟩)
  | .Extended eid =>
      (ExtendedId.new (swap_eid_target_source eid.as_raw)).map
        (fun r => ⟨.Extended r⟩)

end RustCan

namespace RustCan

/-! ## Helper lemmas -/

theorem bits_eq_zero_iff (f : IdentifierFlags) :
    f.bits = 0 ↔ f = IdentifierFlags.empty := by
  obtain ⟨e, r, er⟩ := f
  cases e <;> cases r <;> cases er <;> decide

theorem ext_le_bits (f : IdentifierFlags) (h : f.extended = true) :
    0x80000000 ≤ f.bits := by
  obtain ⟨e, r, er⟩ := f
  subst h
  cases r <;> cases er <;> decide

theorem bits_le_ext_iff (f : IdentifierFlags) (h : f.extended = true) :
    f.bits ≤ 0x80000000 ↔ f = IdentifierFlags.EXTENDED := by
  obtain ⟨e, r, er⟩ := f
  subst h
  cases r <;> cases er <;> decide

theorem id_le_ss (a b : StandardId) :
    Id.le (.Standard a) (.Standard b) = true ↔
      a.identifier < b.identifier ∨
        (a.identifier = b.identifier ∧ a.flags.bits ≤ b.flags.bits) := by
  simp only [Id.le, Id.cmp, StandardId.cmp]
  split_ifs with h1 h2 h3 h4 <;> simp <;> omega

theorem id_ge_ss (a b : StandardId) :
    Id.ge (.Standard a) (.Standard b) = true ↔
      b.identifier < a.identifier ∨
        (a.identifier = b.identifier ∧ b.flags.bits ≤ a.flags.bits) := by
  simp only [Id.ge, Id.cmp, StandardId.cmp]
  split_ifs with h1 h2 h3 h4 <;> simp <;> omega

theorem id_le_ee (a b : ExtendedId) :
    Id.le (.Extended a) (.Extended b) = true ↔
      a.identifier < b.identifier ∨
        (a.identifier = b.identifier ∧ a.flags.bits ≤ b.flags.bits) := by
  simp only [Id.le, Id.cmp, ExtendedId.cmp]
  split_ifs with h1 h2 h3 h4 <;> simp <;> omega

theorem id_ge_ee (a b : ExtendedId) :
    Id.ge (.Extended a) (.Extended b) = true ↔
      b.identifier < a.identifier ∨
        (a.identifier = b.identifier ∧ b.flags.bits ≤ a.flags.bits) := by
  simp only [Id.ge, Id.cmp, ExtendedId.cmp]
  split_ifs with h1 h2 h3 h4 <;> simp <;> omega

theorem id_le_se (a : StandardId) (b : ExtendedId) :
    Id.le (.Standard a) (.Extended b) = true := rfl

theorem id_ge_se (a : StandardId) (b : ExtendedId) :
    Id.ge (.Standard a) (.Extended b) = false := rfl

theorem id_le_es (a : ExtendedId) (b : StandardId) :
    Id.le (.Extended a) (.Standard b) = false := rfl

theorem id_ge_es (a : ExtendedId) (b : StandardId) :
    Id.ge (.Extended a) (.Standard b) = true := rfl

theorem req_from_id_isSome (id : Id) :
    (DiagnosticRequestAddress.from_id id).isSome =
      ((Id.ge id OBD_REQ_ADDR_START_STANDARD &&
          Id.le id OBD_REQ_ADDR_END_STANDARD) ||
        (Id.ge id OBD_REQ_ADDR_START_EXTENDED &&
          Id.le id OBD_REQ_ADDR_END_EXTENDED)) := by
  simp only [DiagnosticRequestAddress.from_id]
  split <;> simp_all

theorem resp_from_id_isSome (id : Id) :
    (DiagnosticResponseAddress.from_id id).isSome =
      ((Id.ge id OBD_RESP_ADDR_START_STANDARD &&
          Id.le id OBD_RESP_ADDR_END_STANDARD) ||
        (Id.ge id OBD_RESP_ADDR_START_EXTENDED &&
          Id.le id OBD_RESP_ADDR_END_EXTENDED)) := by
  simp only [DiagnosticResponseAddress.from_id]
  split <;> simp_all

end RustCan

namespace RustCan

theorem empty_bits : IdentifierFlags.empty.bits = 0 := rfl

theorem ext_bits : IdentifierFlags.EXTENDED.bits = 0x80000000 := rfl

theorem req_band_std (v : Nat) (f : IdentifierFlags) :
    (DiagnosticRequestAddress.from_id (.Standard ⟨v, f⟩)).isSome = true ↔
      0x7E0 ≤ v ∧ v ≤ 0x7E7 ∧ (v = 0x7E7 → f = IdentifierFlags.empty) := by
  rw [req_from_id_isSome]
  simp only [OBD_REQ_ADDR_START_STANDARD, OBD_REQ_ADDR_END_STANDARD,
    OBD_REQ_ADDR_START_EXTENDED, OBD_REQ_ADDR_END_EXTENDED, Bool.or_eq_true,
    Bool.and_eq_true, id_ge_se, id_ge_ss, id_le_ss, Bool.false_eq_true,
    false_and, or_false, empty_bits, Nat.le_zero, bits_eq_zero_iff,
    Nat.zero_le, and_true]
  by_cases hf : f = IdentifierFlags.empty <;> simp [hf] <;> omega

theorem req_band_ext (v : Nat) (f : IdentifierFlags) (h : f.extended = true) :
    (DiagnosticRequestAddress.from_id (.Extended ⟨v, f⟩)).isSome = true ↔
      0x18DA00F1 ≤ v ∧ v ≤ 0x18DAFFF1 ∧
        (v = 0x18DAFFF1 → f = IdentifierFlags.EXTENDED) := by
  rw [req_from_id_isSome]
  simp only [OBD_REQ_ADDR_START_STANDARD, OBD_REQ_ADDR_END_STANDARD,
    OBD_REQ_ADDR_START_EXTENDED, OBD_REQ_ADDR_END_EXTENDED, Bool.or_eq_true,
    Bool.and_eq_true, id_ge_es, id_le_es, Bool.false_eq_true, and_false,
    false_or, id_ge_ee, id_le_ee, ext_bits, ext_le_bits f h, and_true,
    bits_le_ext_iff f h]
  by_cases hf : f = IdentifierFlags.EXTENDED <;> simp [hf] <;> omega

theorem resp_band_std (v : Nat) (f : IdentifierFlags) :
    (DiagnosticResponseAddress.from_id (.Standard ⟨v, f⟩)).isSome = true ↔
      0x7E8 ≤ v ∧ v ≤ 0x7EF ∧ (v = 0x7EF → f = IdentifierFlags.empty) := by
  rw [resp_from_id_isSome]
  simp only [OBD_RESP_ADDR_START_STANDARD, OBD_RESP_ADDR_END_STANDARD,
    OBD_RESP_ADDR_START_EXTENDED, OBD_RESP_ADDR_END_EXTENDED, Bool.or_eq_true,
    Bool.and_eq_true, id_ge_se, id_ge_ss, id_le_ss, Bool.false_eq_true,
    false_and, or_false, empty_bits, Nat.le_zero, bits_eq_zero_iff,
    Nat.zero_le, and_true]
  by_cases hf : f = IdentifierFlags.empty <;> simp [hf] <;> omega

theorem resp_band_ext (v : Nat) (f : IdentifierFlags) (h : f.extended = true) :
    (DiagnosticResponseAddress.from_id (.Extended ⟨v, f⟩)).isSome = true ↔
      0x18DAF100 ≤ v ∧ v ≤ 0x18DAF1FF ∧
        (v = 0x18DAF1FF → f = IdentifierFlags.EXTENDED) := by
  rw [resp_from_id_isSome]
  simp only [OBD_RESP_ADDR_START_STANDARD, OBD_RESP_ADDR_END_STANDARD,
    OBD_RESP_ADDR_START_EXTENDED, OBD_RESP_ADDR_END_EXTENDED, Bool.or_eq_true,
    Bool.and_eq_true, id_ge_es, id_le_es, Bool.false_eq_true, and_false,
    false_or, id_ge_ee, id_le_ee, ext_bits, ext_le_bits f h, and_true,
    bits_le_ext_iff f h]
  by_cases hf : f = IdentifierFlags.EXTENDED <;> simp [hf] <;> omega

end RustCan

namespace RustCan

theorem and_shiftLeft_mask (x m k : Nat) :
    x &&& (m <<< k) = ((x >>> k) &&& m) <<< k := by
  apply Nat.eq_of_testBit_eq
  intro i
  simp only [Nat.testBit_and, Nat.testBit_shiftLeft, Nat.testBit_shiftRight]
  by_cases h : k ≤ i
  · simp [h, Nat.add_sub_cancel' h]
  · simp [h]

theorem swap_eq_sum (x : Nat) :
    swap_eid_target_source x =
      (x / 65536 % 65536) * 65536 + ((x % 256) * 256 + x / 256 % 256) := by
  have h1 : x &&& 0xFFFF0000 = (x / 65536 % 65536) * 65536 := by
    rw [show (0xFFFF0000 : Nat) = 0xFFFF <<< 16 by norm_num [Nat.shiftLeft_eq],
      and_shiftLeft_mask, Nat.shiftRight_eq_div_pow, Nat.shiftLeft_eq,
      show (0xFFFF : Nat) = 2 ^ 16 - 1 by norm_num,
      Nat.and_pow_two_sub_one_eq_mod]
  have h2 : (x &&& 0xFF00) >>> 8 = x / 256 % 256 := by
    rw [show (0xFF00 : Nat) = 0xFF <<< 8 by norm_num [Nat.shiftLeft_eq],
      and_shiftLeft_mask, Nat.shiftRight_eq_div_pow, Nat.shiftRight_eq_div_pow,
      Nat.shiftLeft_eq, show (0xFF : Nat) = 2 ^ 8 - 1 by norm_num,
      Nat.and_pow_two_sub_one_eq_mod]
    have hp : (2 : Nat) ^ 8 = 256 := by norm_num
    rw [hp]
    omega
  have h3 : (x &&& 0xFF) <<< 8 = (x % 256) * 256 := by
    rw [show (0xFF : Nat) = 2 ^ 8 - 1 by norm_num,
      Nat.and_pow_two_sub_one_eq_mod, Nat.shiftLeft_eq]
  have e1 : (x % 256) * 256 ||| x / 256 % 256 =
      (x % 256) * 256 + x / 256 % 256 := by
    have hc : (x % 256) * 256 = 2 ^ 8 * (x % 256) := by
      rw [Nat.mul_comm]; norm_num
    rw [hc]
    refine (Nat.mul_add_lt_is_or ?_ _).symm
    have hp : (2 : Nat) ^ 8 = 256 := by norm_num
    omega
  have e2 : (x / 65536 % 65536) * 65536 ||| ((x % 256) * 256 + x / 256 % 256) =
      (x / 65536 % 65536) * 65536 + ((x % 256) * 256 + x / 256 % 256) := by
    have hc : (x / 65536 % 65536) * 65536 = 2 ^ 16 * (x / 65536 % 65536) := by
      rw [Nat.mul_comm]; norm_num
    rw [hc]
    refine (Nat.mul_add_lt_is_or ?_ _).symm
    have hp : (2 : Nat) ^ 16 = 65536 := by norm_num
    omega
  show x &&& 0xFFFF0000 ||| (x &&& 0x0000FF00) >>> 8 |||
      (x &&& 0x000000FF) <<< 8 = _
  rw [h1, h2, h3, Nat.or_assoc, Nat.or_comm (x / 256 % 256) ((x % 256) * 256),
    e1, e2]

theorem swap_le_max (x : Nat) (h : x ≤ 0x1FFFFFFF) :
    swap_eid_target_source x ≤ 0x1FFFFFFF := by
  rw [swap_eq_sum, Nat.mod_eq_of_lt (show x / 65536 < 65536 by omega)]
  have h4 : x / 65536 ≤ 8191 := by omega
  have h5 : (x % 256) * 256 + x / 256 % 256 ≤ 65535 := by omega
  calc x / 65536 * 65536 + ((x % 256) * 256 + x / 256 % 256) ≤
      8191 * 65536 + 65535 := Nat.add_le_add (Nat.mul_le_mul_right _ h4) h5
    _ ≤ 0x1FFFFFFF := by norm_num

end RustCan

namespace RustCan

theorem swap_sum_val (a b c : Nat) (ha : a < 65536) (hb : b < 256)
    (hc : c < 256) :
    swap_eid_target_source (a * 65536 + (b * 256 + c)) =
      a * 65536 + (c * 256 + b) := by
  rw [swap_eq_sum]
  have h1 : (a * 65536 + (b * 256 + c)) / 65536 = a := by omega
  have h2 : (a * 65536 + (b * 256 + c)) % 256 = c := by omega
  have h3 : (a * 65536 + (b * 256 + c)) / 256 % 256 = b := by omega
  rw [h1, h2, h3, Nat.mod_eq_of_lt ha]

end RustCan

namespace RustCan

theorem bits_decomp (f : IdentifierFlags) :
    ∃ k, k ≤ 7 ∧ f.bits = 536870912 * k := by
  obtain ⟨e, r, er⟩ := f
  cases e <;> cases r <;> cases er
  · exact ⟨0, by omega, by decide⟩
  · exact ⟨1, by omega, by decide⟩
  · exact ⟨2, by omega, by decide⟩
  · exact ⟨3, by omega, by decide⟩
  · exact ⟨4, by omega, by decide⟩
  · exact ⟨5, by omega, by decide⟩
  · exact ⟨6, by omega, by decide⟩
  · exact ⟨7, by omega, by decide⟩

theorem bits_inj (f g : IdentifierFlags) (h : f.bits = g.bits) : f = g := by
  obtain ⟨e, r, er⟩ := f
  obtain ⟨e2, r2, er2⟩ := g
  revert h
  cases e <;> cases r <;> cases er <;> cases e2 <;> cases r2 <;> cases er2 <;>
    decide

theorem or_flag_block (k raw : Nat) (h : raw < 0x20000000) :
    raw ||| 536870912 * k = 536870912 * k + raw := by
  rw [Nat.or_comm, show (536870912 : Nat) = 2 ^ 29 by norm_num]
  refine (Nat.mul_add_lt_is_or ?_ k).symm
  have hp : (2 : Nat) ^ 29 = 536870912 := by norm_num
  omega

theorem none_match_char (raw : Nat) (f : IdentifierFlags) (h : raw < 0x20000000) :
    ((raw ||| f.bits) &&& 0xFFFFFFFF == 0xFFFFFFFF) = true ↔
      raw = 0x1FFFFFFF ∧ f = IdentifierFlags.all := by
  obtain ⟨k, hk, hb⟩ := bits_decomp f
  rw [hb, or_flag_block k raw h, beq_iff_eq,
    show (0xFFFFFFFF : Nat) = 2 ^ 32 - 1 by norm_num,
    Nat.and_pow_two_sub_one_eq_mod]
  have hp : (2 : Nat) ^ 32 = 4294967296 := by norm_num
  constructor
  · intro heq
    have hkr : raw = 0x1FFFFFFF ∧ k = 7 := by omega
    refine ⟨hkr.1, bits_inj f IdentifierFlags.all ?_⟩
    rw [hb, hkr.2]
    decide
  · rintro ⟨h1, h2⟩
    subst h1 h2
    have hk7 : k = 7 := by
      have := hb.symm
      have hall : IdentifierFlags.all.bits = 3758096384 := by decide
      omega
    subst hk7
    omega

end RustCan

namespace RustCan

/-- Claim C1: `Filter::from_identity(id)` is documented to match only the
exact identifier, in its exact addressing mode: by the doc comment in
`filter.rs`, a standard-mode 0x123 identity filter must not match an extended
0x123.  The code disagrees: for a flag-free standard identifier the mask is
only `EFF_MASK`, which does not contain the EXTENDED flag bit, so the
extended identifier with the same numeric value does match. -/
theorem c1_from_identity_mode_confusion :
    (Filter.from_identity (Id.Standard ⟨0x123, IdentifierFlags.empty⟩)).matches
        (Id.Extended ⟨0x123, IdentifierFlags.EXTENDED⟩) = true ∧
      Id.Standard ⟨0x123, IdentifierFlags.empty⟩ ≠
        Id.Extended ⟨0x123, IdentifierFlags.EXTENDED⟩ := by
  decide

/-- Claim C2 counterexample: the in-range, constructible identifier
`ExtendedId::with_flags(0x1FFFFFFF, all flags)` does match `Filter::none()`,
so `none()` does not reject every constructible identifier. -/
theorem c2_none_matched_counterexample :
    ExtendedId.with_flags 0x1FFFFFFF IdentifierFlags.all =
        some ⟨0x1FFFFFFF, IdentifierFlags.all⟩ ∧
      Filter.none.matches (Id.Extended ⟨0x1FFFFFFF, IdentifierFlags.all⟩) =
        true := by
  decide

/-- Claim C2 (amended): `Filter::any()` matches every identifier;
`Filter::none()` rejects every identifier whose numeric value is in range for
its variant, except the single identifier `Extended(0x1FFFFFFF)` carrying all
three flags, which it does match. -/
theorem c2_any_none_amended :
    (∀ x : Id, Filter.any.matches x = true) ∧
      (∀ x : Id, Id.InRange x →
        (Filter.none.matches x = true ↔
          x = Id.Extended ⟨0x1FFFFFFF, IdentifierFlags.all⟩)) := by
  have hnone : Filter.none =
      ⟨Id.Extended ⟨0x1FFFFFFF, IdentifierFlags.all⟩, ⟨0xFFFFFFFF⟩⟩ := by
    decide
  have hself : ((0x1FFFFFFF : Nat) ||| IdentifierFlags.all.bits) &&&
      0xFFFFFFFF = 0xFFFFFFFF := by decide
  constructor
  · intro x
    simp [Filter.matches, Filter.any]
  · intro x hx
    rw [hnone]
    cases x with
    | Standard sid =>
        obtain ⟨v, f⟩ := sid
        simp only [Filter.matches, Id.as_raw, StandardId.as_raw, Id.flags,
          StandardId.flags, ExtendedId.as_raw, ExtendedId.flags, hself]
        rw [none_match_char v f (by exact lt_of_le_of_lt hx (by norm_num))]
        constructor
        · rintro ⟨h1, h2⟩
          exact absurd h1 (by simp only [Id.InRange] at hx; omega)
        · intro hh
          exact Id.noConfusion hh
    | Extended eid =>
        obtain ⟨v, f⟩ := eid
        simp only [Filter.matches, Id.as_raw, StandardId.as_raw, Id.flags,
          StandardId.flags, ExtendedId.as_raw, ExtendedId.flags, hself]
        rw [none_match_char v f
          (by simp only [Id.InRange] at hx; omega)]
        simp [Id.Extended.injEq, ExtendedId.mk.injEq]

/-- Claim C2 witness: the amended theorem applied at a concrete identifier. -/
theorem c2_any_none_witness :
    Filter.any.matches (Id.Standard ⟨5, IdentifierFlags.empty⟩) = true ∧
      (Filter.none.matches (Id.Standard ⟨5, IdentifierFlags.empty⟩) = true ↔
        Id.Standard ⟨5, IdentifierFlags.empty⟩ =
          Id.Extended ⟨0x1FFFFFFF, IdentifierFlags.all⟩) :=
  ⟨c2_any_none_amended.1 (Id.Standard ⟨5, IdentifierFlags.empty⟩),
    c2_any_none_amended.2 (Id.Standard ⟨5, IdentifierFlags.empty⟩)
      (by simp only [Id.InRange]; omega)⟩

/-- Claim C3 counterexample: two bounds with equal raw value but different
flags: swapping the arguments of `Filter::range` changes the matching
behaviour, because the tie is resolved in favour of the first argument. -/
theorem c3_range_order_counterexample :
    (Filter.range (Id.Standard ⟨5, IdentifierFlags.empty⟩)
          (Id.Standard ⟨5, IdentifierFlags.REMOTE⟩)).matches
        (Id.Standard ⟨5, IdentifierFlags.empty⟩) ≠
      (Filter.range (Id.Standard ⟨5, IdentifierFlags.REMOTE⟩)
          (Id.Standard ⟨5, IdentifierFlags.empty⟩)).matches
        (Id.Standard ⟨5, IdentifierFlags.empty⟩) := by
  decide

/-- Claim C3 (amended): whenever the two bounds have distinct raw values,
`Filter::range` is insensitive to argument order (the two filters are equal,
hence match identically); the claim fails only for bounds with equal raw
value but different variant or flags. -/
theorem c3_range_symm_amended (start stop x : Id)
    (h : start.as_raw ≠ stop.as_raw) :
    (Filter.range start stop).matches x =
      (Filter.range stop start).matches x := by
  have key : Filter.range start stop = Filter.range stop start := by
    unfold Filter.range
    rcases Nat.lt_trichotomy start.as_raw stop.as_raw with hlt | heq | hgt
    · rw [if_neg (by omega), if_pos hlt]
    · exact absurd heq h
    · rw [if_pos hgt, if_neg (by omega)]
  rw [key]

/-- Claim C3 witness: the amended theorem applied at the OBD response band. -/
theorem c3_range_symm_witness :
    (Filter.range (Id.Standard ⟨0x7E8, IdentifierFlags.empty⟩)
          (Id.Standard ⟨0x7EF, IdentifierFlags.empty⟩)).matches
        (Id.Standard ⟨0x7EA, IdentifierFlags.empty⟩) =
      (Filter.range (Id.Standard ⟨0x7EF, IdentifierFlags.empty⟩)
          (Id.Standard ⟨0x7E8, IdentifierFlags.empty⟩)).matches
        (Id.Standard ⟨0x7EA, IdentifierFlags.empty⟩) :=
  c3_range_symm_amended (Id.Standard ⟨0x7E8, IdentifierFlags.empty⟩)
    (Id.Standard ⟨0x7EF, IdentifierFlags.empty⟩)
    (Id.Standard ⟨0x7EA, IdentifierFlags.empty⟩) (by decide)

/-- Claim C4 counterexample: two standard identifiers with the same numeric
value but different flags do not compare equal (the derived lexicographic
ordering consults the flag bits). -/
theorem c4_flags_affect_ordering :
    Id.cmp (Id.Standard ⟨0, IdentifierFlags.empty⟩)
        (Id.Standard ⟨0, IdentifierFlags.REMOTE⟩) ≠ Ordering.eq := by
  decide

theorem std_cmp_char (a b : StandardId) :
    (Id.cmp (.Standard a) (.Standard b) = .lt ↔
      a.identifier < b.identifier ∨
        (a.identifier = b.identifier ∧ a.flags.bits < b.flags.bits)) ∧
    (Id.cmp (.Standard a) (.Standard b) = .gt ↔
      b.identifier < a.identifier ∨
        (a.identifier = b.identifier ∧ b.flags.bits < a.flags.bits)) ∧
    (Id.cmp (.Standard a) (.Standard b) = .eq ↔
      a.identifier = b.identifier ∧ a.flags = b.flags) := by
  have hbi : a.flags.bits = b.flags.bits ↔ a.flags = b.flags :=
    ⟨bits_inj a.flags b.flags, fun h => by rw [h]⟩
  simp only [Id.cmp, StandardId.cmp]
  split_ifs with h1 h2 h3 h4 <;> refine ⟨?_, ?_, ?_⟩ <;> simp [← hbi] <;>
    omega

theorem ext_cmp_char (a b : ExtendedId) :
    (Id.cmp (.Extended a) (.Extended b) = .lt ↔
      a.identifier < b.identifier ∨
        (a.identifier = b.identifier ∧ a.flags.bits < b.flags.bits)) ∧
    (Id.cmp (.Extended a) (.Extended b) = .gt ↔
      b.identifier < a.identifier ∨
        (a.identifier = b.identifier ∧ b.flags.bits < a.flags.bits)) ∧
    (Id.cmp (.Extended a) (.Extended b) = .eq ↔
      a.identifier = b.identifier ∧ a.flags = b.flags) := by
  have hbi : a.flags.bits = b.flags.bits ↔ a.flags = b.flags :=
    ⟨bits_inj a.flags b.flags, fun h => by rw [h]⟩
  simp only [Id.cmp, ExtendedId.cmp]
  split_ifs with h1 h2 h3 h4 <;> refine ⟨?_, ?_, ?_⟩ <;> simp [← hbi] <;>
    omega

/-- Claim C4 (amended): every standard identifier compares strictly below
every extended one; within a variant the ordering is exactly lexicographic on
(numeric value, flag bits): the comparison is Less iff the value is smaller
or the value ties and the flag bits are smaller, Greater in the mirrored
cases, and Equal iff both the value and the flags agree — so the flag bits do
participate, as tie-breakers. -/
theorem c4_ordering_amended :
    (∀ (s : StandardId) (e : ExtendedId),
        Id.cmp (.Standard s) (.Extended e) = .lt) ∧
    (∀ (s : StandardId) (e : ExtendedId),
        Id.cmp (.Extended e) (.Standard s) = .gt) ∧
    (∀ a b : StandardId,
      (Id.cmp (.Standard a) (.Standard b) = .lt ↔
        a.identifier < b.identifier ∨
          (a.identifier = b.identifier ∧ a.flags.bits < b.flags.bits)) ∧
      (Id.cmp (.Standard a) (.Standard b) = .gt ↔
        b.identifier < a.identifier ∨
          (a.identifier = b.identifier ∧ b.flags.bits < a.flags.bits)) ∧
      (Id.cmp (.Standard a) (.Standard b) = .eq ↔
        a.identifier = b.identifier ∧ a.flags = b.flags)) ∧
    (∀ a b : ExtendedId,
      (Id.cmp (.Extended a) (.Extended b) = .lt ↔
        a.identifier < b.identifier ∨
          (a.identifier = b.identifier ∧ a.flags.bits < b.flags.bits)) ∧
      (Id.cmp (.Extended a) (.Extended b) = .gt ↔
        b.identifier < a.identifier ∨
          (a.identifier = b.identifier ∧ b.flags.bits < a.flags.bits)) ∧
      (Id.cmp (.Extended a) (.Extended b) = .eq ↔
        a.identifier = b.identifier ∧ a.flags = b.flags)) :=
  ⟨fun _ _ => rfl, fun _ _ => rfl, std_cmp_char, ext_cmp_char⟩

/-- Claim C4 witness: the amended theorem applied at concrete identifiers. -/
theorem c4_ordering_witness :
    Id.cmp (Id.Standard ⟨1, IdentifierFlags.empty⟩)
        (Id.Standard ⟨2, IdentifierFlags.empty⟩) = Ordering.lt :=
  (c4_ordering_amended.2.2.1 ⟨1, IdentifierFlags.empty⟩
    ⟨2, IdentifierFlags.empty⟩).1.mpr (Or.inl (by decide))

end RustCan

namespace RustCan

theorem req_from_id_eq (id : Id) (a : DiagnosticRequestAddress)
    (h : DiagnosticRequestAddress.from_id id = some a) : a = ⟨id⟩ := by
  simp only [DiagnosticRequestAddress.from_id] at h
  split at h
  · cases h
    rfl
  · cases h

theorem resp_from_id_eq (id : Id) (b : DiagnosticResponseAddress)
    (h : DiagnosticResponseAddress.from_id id = some b) : b = ⟨id⟩ := by
  simp only [DiagnosticResponseAddress.from_id] at h
  split at h
  · cases h
    rfl
  · cases h

/-- Claim C5 counterexample: the identifier `Standard(0x7E7)` with the REMOTE
flag has its raw value inside the standard request band, yet
`DiagnosticRequestAddress::from_id` rejects it: the band check compares whole
`Id` values, and the flagged identifier is ordered strictly above the flagless
band end. -/
theorem c5_top_of_band_flagged_rejected :
    DiagnosticRequestAddress.from_id
        (Id.Standard ⟨0x7E7, IdentifierFlags.REMOTE⟩) = none := by
  decide

/-- Claim C5 (amended): `from_id` succeeds iff the identifier lies between
the band constants under the `Id` ordering, which compares the numeric value
first and breaks ties on the flag bits.  This coincides with raw-value band
membership except at the top of a band, where an identifier carrying extra
flags is rejected. -/
theorem c5_from_id_band_amended :
    (∀ (v : Nat) (f : IdentifierFlags),
        (DiagnosticRequestAddress.from_id (.Standard ⟨v, f⟩)).isSome = true ↔
          0x7E0 ≤ v ∧ v ≤ 0x7E7 ∧ (v = 0x7E7 → f = IdentifierFlags.empty)) ∧
    (∀ (v : Nat) (f : IdentifierFlags), f.extended = true →
        ((DiagnosticRequestAddress.from_id (.Extended ⟨v, f⟩)).isSome = true ↔
          0x18DA00F1 ≤ v ∧ v ≤ 0x18DAFFF1 ∧
            (v = 0x18DAFFF1 → f = IdentifierFlags.EXTENDED))) :=
  ⟨req_band_std, req_band_ext⟩

/-- Claim C5 witness: the amended theorem applied at the extended band
start. -/
theorem c5_from_id_band_witness :
    (DiagnosticRequestAddress.from_id
        (Id.Extended ⟨0x18DA00F1, IdentifierFlags.EXTENDED⟩)).isSome = true :=
  (c5_from_id_band_amended.2 0x18DA00F1 IdentifierFlags.EXTENDED rfl).mpr
    (by decide)

/-- Claim C6 counterexample: `StandardId::set_flags` stores the given flags
verbatim, so it can introduce the EXTENDED flag on a standard identifier,
contradicting the claim that the bit stays clear through `set_flags`. -/
theorem c6_set_flags_keeps_extended :
    (StandardId.set_flags ⟨0, IdentifierFlags.empty⟩
        IdentifierFlags.EXTENDED).flags.extended = true := by
  decide

/-- Claim C6 (amended): construction of a `StandardId` via `new`/`with_flags`
clears the EXTENDED flag, but `StandardId::set_flags`/`map_flags` store the
supplied flags verbatim (and so can set it); an `ExtendedId` has the EXTENDED
flag set after `new`, `with_flags`, `set_flags` and `map_flags` — the bit is
re-asserted after every caller-supplied transformation. -/
theorem c6_flag_invariant_amended :
    (∀ (v : Nat) (s : StandardId), StandardId.new v = some s →
        s.flags.extended = false) ∧
    (∀ (v : Nat) (f : IdentifierFlags) (s : StandardId),
        StandardId.with_flags v f = some s → s.flags.extended = false) ∧
    (∀ (s : StandardId) (f : IdentifierFlags), (s.set_flags f).flags = f) ∧
    (∀ (s : StandardId) (g : IdentifierFlags → IdentifierFlags),
        (s.map_flags g).flags = g s.flags) ∧
    (∀ (v : Nat) (e : ExtendedId), ExtendedId.new v = some e →
        e.flags.extended = true) ∧
    (∀ (v : Nat) (f : IdentifierFlags) (e : ExtendedId),
        ExtendedId.with_flags v f = some e → e.flags.extended = true) ∧
    (∀ (e : ExtendedId) (f : IdentifierFlags),
        (e.set_flags f).flags.extended = true) ∧
    (∀ (e : ExtendedId) (g : IdentifierFlags → IdentifierFlags),
        (e.map_flags g).flags.extended = true) := by
  refine ⟨?_, ?_, fun s f => rfl, fun s g => rfl, ?_, ?_, ?_, ?_⟩
  · intro v s h
    simp only [StandardId.new] at h
    split at h
    · cases h
      rfl
    · cases h
  · intro v f s h
    simp only [StandardId.with_flags] at h
    split at h
    · cases h
      simp [IdentifierFlags.difference, IdentifierFlags.EXTENDED]
    · cases h
  · intro v e h
    simp only [ExtendedId.new] at h
    split at h
    · cases h
      rfl
    · cases h
  · intro v f e h
    simp only [ExtendedId.with_flags] at h
    split at h
    · cases h
      simp [IdentifierFlags.union, IdentifierFlags.EXTENDED]
    · cases h
  · intro e f
    simp [ExtendedId.set_flags, IdentifierFlags.union, IdentifierFlags.EXTENDED]
  · intro e g
    simp [ExtendedId.map_flags, IdentifierFlags.union, IdentifierFlags.EXTENDED]

/-- Claim C6 witness: the amended theorem applied at concrete inputs. -/
theorem c6_flag_invariant_witness :
    ((⟨0, IdentifierFlags.empty⟩ : StandardId).flags.extended = false) ∧
      ((⟨7, IdentifierFlags.EXTENDED⟩ : ExtendedId).flags.extended = true) :=
  ⟨c6_flag_invariant_amended.1 0 ⟨0, IdentifierFlags.empty⟩ (by decide),
    c6_flag_invariant_amended.2.2.2.2.1 7 ⟨7, IdentifierFlags.EXTENDED⟩
      (by decide)⟩

/-- Claim C7: standard-mode diagnostic pairing is the fixed offset 8 in both
directions: every accepted standard request address maps to the identifier
with raw value request + 8, every accepted standard response address maps
back to raw value response − 8, and the concrete 0x7E0 / 0x7E8 round trip
holds. -/
theorem c7_standard_offset_pairing :
    (∀ (id : Id) (a : DiagnosticRequestAddress) (sid : StandardId),
        DiagnosticRequestAddress.from_id id = some a → id = .Standard sid →
        a.into_response_address =
          some ⟨.Standard ⟨sid.identifier + 8, IdentifierFlags.empty⟩⟩) ∧
    (∀ (id : Id) (b : DiagnosticResponseAddress) (sid : StandardId),
        DiagnosticResponseAddress.from_id id = some b → id = .Standard sid →
        b.into_request_address =
          some ⟨.Standard ⟨sid.identifier - 8, IdentifierFlags.empty⟩⟩) ∧
    DiagnosticRequestAddress.from_id
        (Id.Standard ⟨0x7E0, IdentifierFlags.empty⟩) =
      some ⟨Id.Standard ⟨0x7E0, IdentifierFlags.empty⟩⟩ ∧
    DiagnosticRequestAddress.into_response_address
        ⟨Id.Standard ⟨0x7E0, IdentifierFlags.empty⟩⟩ =
      some ⟨Id.Standard ⟨0x7E8, IdentifierFlags.empty⟩⟩ ∧
    DiagnosticResponseAddress.from_id
        (Id.Standard ⟨0x7E8, IdentifierFlags.empty⟩) =
      some ⟨Id.Standard ⟨0x7E8, IdentifierFlags.empty⟩⟩ ∧
    DiagnosticResponseAddress.into_request_address
        ⟨Id.Standard ⟨0x7E8, IdentifierFlags.empty⟩⟩ =
      some ⟨Id.Standard ⟨0x7E0, IdentifierFlags.empty⟩⟩ := by
  refine ⟨?_, ?_, by decide, by decide, by decide, by decide⟩
  · intro id a sid h hid
    subst hid
    have hs : (DiagnosticRequestAddress.from_id (Id.Standard sid)).isSome =
        true := by
      rw [h]
      rfl
    obtain rfl := req_from_id_eq (Id.Standard sid) a h
    obtain ⟨v, f⟩ := sid
    rw [req_band_std] at hs
    obtain ⟨h1, h2, _⟩ := hs
    simp only [DiagnosticRequestAddress.into_response_address,
      StandardId.as_raw, OBD_REQ_RESP_ADDR_OFFSET_STANDARD, StandardId.new,
      StandardId.MAX]
    rw [if_pos (by omega)]
    rfl
  · intro id b sid h hid
    subst hid
    have hs : (DiagnosticResponseAddress.from_id (Id.Standard sid)).isSome =
        true := by
      rw [h]
      rfl
    obtain rfl := resp_from_id_eq (Id.Standard sid) b h
    obtain ⟨v, f⟩ := sid
    rw [resp_band_std] at hs
    obtain ⟨h1, h2, _⟩ := hs
    simp only [DiagnosticResponseAddress.into_request_address,
      StandardId.as_raw, OBD_REQ_RESP_ADDR_OFFSET_STANDARD, StandardId.new,
      StandardId.MAX]
    rw [if_neg (by omega), if_pos (by omega)]
    rfl

/-- Claim C7 witness: the request-side pairing applied at 0x7E3. -/
theorem c7_standard_offset_witness :
    DiagnosticRequestAddress.into_response_address
        ⟨Id.Standard ⟨0x7E3, IdentifierFlags.empty⟩⟩ =
      some ⟨Id.Standard ⟨0x7EB, IdentifierFlags.empty⟩⟩ :=
  c7_standard_offset_pairing.1 (Id.Standard ⟨0x7E3, IdentifierFlags.empty⟩)
    ⟨Id.Standard ⟨0x7E3, IdentifierFlags.empty⟩⟩ ⟨0x7E3, IdentifierFlags.empty⟩
    (by decide) rfl

/-- Claim C8: the extended-mode pairing byte swap keeps the top 16 bits and
exchanges bits 8–15 with bits 0–7, it is self-inverse on every 32-bit value,
and the concrete swap of 0x18DAF142 is 0x18DA42F1. -/
theorem c8_swap_self_inverse :
    (∀ x : Nat, x < 4294967296 →
        swap_eid_target_source (swap_eid_target_source x) = x) ∧
    (∀ x : Nat, x < 4294967296 →
        swap_eid_target_source x =
          x / 65536 * 65536 + (x % 256) * 256 + x / 256 % 256) ∧
    swap_eid_target_source 0x18DAF142 = 0x18DA42F1 ∧
    swap_eid_target_source (swap_eid_target_source 0x18DAF142) =
      0x18DAF142 := by
  refine ⟨?_, ?_, by decide, by decide⟩
  · intro x hx
    rw [swap_eq_sum x, Nat.mod_eq_of_lt (show x / 65536 < 65536 by omega),
      swap_sum_val (x / 65536) (x % 256) (x / 256 % 256) (by omega) (by omega)
        (by omega)]
    omega
  · intro x hx
    rw [swap_eq_sum, Nat.mod_eq_of_lt (show x / 65536 < 65536 by omega)]
    omega

/-- Claim C8 witness: self-inversion applied at a concrete 32-bit value. -/
theorem c8_swap_witness :
    swap_eid_target_source (swap_eid_target_source 0xABCDEF12) = 0xABCDEF12 :=
  c8_swap_self_inverse.1 0xABCDEF12 (by decide)

/-- Claim C9 counterexample: starting from `Filter::none()`, whose mask has
the EXTENDED bit set, `allow_extended_frames` followed by
`disallow_extended_frames` leaves the bit cleared, not restored. -/
theorem c9_toggle_counterexample :
    ((Filter.none.allow_extended_frames).disallow_extended_frames).mask.val &&&
        IdentifierFlags.EXTENDED.bits ≠
      Filter.none.mask.val &&& IdentifierFlags.EXTENDED.bits := by
  decide

/-- Claim C9 (amended): `allow_extended_frames` followed by
`disallow_extended_frames` always leaves the EXTENDED mask bit clear; that
equals the filter's original EXTENDED mask bit state exactly when the bit was
clear to begin with. -/
theorem c9_toggle_amended (f : Filter) :
    ((f.allow_extended_frames.disallow_extended_frames).mask.val &&&
        IdentifierFlags.EXTENDED.bits = 0) ∧
      (f.mask.val &&& IdentifierFlags.EXTENDED.bits = 0 →
        (f.allow_extended_frames.disallow_extended_frames).mask.val &&&
            IdentifierFlags.EXTENDED.bits =
          f.mask.val &&& IdentifierFlags.EXTENDED.bits) := by
  have key : (f.allow_extended_frames.disallow_extended_frames).mask.val &&&
      IdentifierFlags.EXTENDED.bits = 0 := by
    simp only [Filter.allow_extended_frames, Filter.disallow_extended_frames]
    rw [Nat.and_assoc,
      show u32_not IdentifierFlags.EXTENDED.bits &&&
        IdentifierFlags.EXTENDED.bits = 0 by decide]
    exact Nat.and_zero _
  exact ⟨key, fun h => by rw [key, h]⟩

/-- Claim C9 witness: the amended theorem applied at `Filter::any()`. -/
theorem c9_toggle_witness :
    (Filter.any.allow_extended_frames.disallow_extended_frames).mask.val &&&
        IdentifierFlags.EXTENDED.bits =
      Filter.any.mask.val &&& IdentifierFlags.EXTENDED.bits :=
  (c9_toggle_amended Filter.any).2 (by decide)

/-- Claim C10: for every identifier accepted by
`DiagnosticRequestAddress::from_id`, `into_response_address` never hits a
failing unwrap (standard raw + 8 stays within 0x7FF, the extended byte swap
stays within 0x1FFFFFFF), and symmetrically every identifier accepted by
`DiagnosticResponseAddress::from_id` survives `into_request_address`
(standard raw − 8 does not underflow). -/
theorem c10_pairing_no_panic :
    (∀ (id : Id) (a : DiagnosticRequestAddress),
        DiagnosticRequestAddress.from_id id = some a →
        (a.into_response_address).isSome = true) ∧
    (∀ (id : Id) (b : DiagnosticResponseAddress),
        DiagnosticResponseAddress.from_id id = some b →
        (b.into_request_address).isSome = true) := by
  constructor
  · intro id a h
    have hs : (DiagnosticRequestAddress.from_id id).isSome = true := by
      rw [h]
      rfl
    obtain rfl := req_from_id_eq id a h
    cases id with
    | Standard sid =>
        obtain ⟨v, f⟩ := sid
        rw [req_band_std] at hs
        obtain ⟨h1, h2, _⟩ := hs
        simp only [DiagnosticRequestAddress.into_response_address,
          StandardId.as_raw, OBD_REQ_RESP_ADDR_OFFSET_STANDARD,
          StandardId.new, StandardId.MAX]
        rw [if_pos (by omega)]
        rfl
    | Extended eid =>
        obtain ⟨v, f⟩ := eid
        rw [req_from_id_isSome] at hs
        simp only [OBD_REQ_ADDR_START_STANDARD, OBD_REQ_ADDR_END_STANDARD,
          OBD_REQ_ADDR_START_EXTENDED, OBD_REQ_ADDR_END_EXTENDED, id_ge_es,
          id_le_es, Bool.or_eq_true, Bool.and_eq_true, Bool.false_eq_true,
          and_false, false_or, id_ge_ee, id_le_ee] at hs
        obtain ⟨hge, hle⟩ := hs
        have hv : v ≤ 0x18DAFFF1 := by
          rcases hle with h1 | ⟨h1, _⟩ <;> omega
        simp only [DiagnosticRequestAddress.into_response_address,
          ExtendedId.as_raw, ExtendedId.new, ExtendedId.MAX]
        rw [if_pos (swap_le_max v (by omega))]
        rfl
  · intro id b h
    have hs : (DiagnosticResponseAddress.from_id id).isSome = true := by
      rw [h]
      rfl
    obtain rfl := resp_from_id_eq id b h
    cases id with
    | Standard sid =>
        obtain ⟨v, f⟩ := sid
        rw [resp_band_std] at hs
        obtain ⟨h1, h2, _⟩ := hs
        simp only [DiagnosticResponseAddress.into_request_address,
          StandardId.as_raw, OBD_REQ_RESP_ADDR_OFFSET_STANDARD,
          StandardId.new, StandardId.MAX]
        rw [if_neg (by omega), if_pos (by omega)]
        rfl
    | Extended eid =>
        obtain ⟨v, f⟩ := eid
        rw [resp_from_id_isSome] at hs
        simp only [OBD_RESP_ADDR_START_STANDARD, OBD_RESP_ADDR_END_STANDARD,
          OBD_RESP_ADDR_START_EXTENDED, OBD_RESP_ADDR_END_EXTENDED, id_ge_es,
          id_le_es, Bool.or_eq_true, Bool.and_eq_true, Bool.false_eq_true,
          and_false, false_or, id_ge_ee, id_le_ee] at hs
        obtain ⟨hge, hle⟩ := hs
        have hv : v ≤ 0x18DAF1FF := by
          rcases hle with h1 | ⟨h1, _⟩ <;> omega
        simp only [DiagnosticResponseAddress.into_request_address,
          ExtendedId.as_raw, ExtendedId.new, ExtendedId.MAX]
        rw [if_pos (swap_le_max v (by omega))]
        rfl

/-- Claim C10 witness: the no-panic theorem applied at concrete accepted
addresses. -/
theorem c10_pairing_witness :
    ((DiagnosticRequestAddress.into_response_address
        ⟨Id.Extended ⟨0x18DA00F1, IdentifierFlags.EXTENDED⟩⟩).isSome = true) ∧
      ((DiagnosticResponseAddress.into_request_address
        ⟨Id.Standard ⟨0x7E8, IdentifierFlags.empty⟩⟩).isSome = true) :=
  ⟨c10_pairing_no_panic.1 (Id.Extended ⟨0x18DA00F1, IdentifierFlags.EXTENDED⟩)
      ⟨Id.Extended ⟨0x18DA00F1, IdentifierFlags.EXTENDED⟩⟩ (by decide),
    c10_pairing_no_panic.2 (Id.Standard ⟨0x7E8, IdentifierFlags.empty⟩)
      ⟨Id.Standard ⟨0x7E8, IdentifierFlags.empty⟩⟩ (by decide)⟩

end RustCan
